import Mathlib

/-!
Shallow embedding of the `ssh_github_auth` PAM module (Rust sources
`src/github.rs`, `src/lib.rs`, `src/user.rs`) and proofs about its
specification claims.

Network calls and host callbacks are modelled by an environment (`Env`)
holding, for each endpoint the code contacts, either a transport-level
failure or an HTTP response (status plus already-parsed body fields).
Rust panics (`unwrap` on `None`/`Err`) are modelled explicitly by a
`panic` constructor so that a crash is distinguishable from a typed
error and from a returned PAM code.
-/

namespace SshGithubAuth

/-- Rust `char::to_ascii_lowercase`: lower-case ASCII letters only. -/
def asciiLowerChar (c : Char) : Char :=
  if 'A' ≤ c && c ≤ 'Z' then Char.ofNat (c.toNat + 32) else c

/-- Rust `str::to_ascii_lowercase`. -/
def asciiLower (s : String) : String :=
  ⟨s.data.map asciiLowerChar⟩

/-- Rust `str::to_lowercase`, restricted to the simple one-character
case mappings (`Char.toLower`); identical on ASCII input. -/
def rustToLower (s : String) : String :=
  ⟨s.data.map Char.toLower⟩

/-- Rust `str::trim`: drop whitespace from both ends. -/
def rustTrim (s : String) : String :=
  ⟨(((s.data.dropWhile Char.isWhitespace).reverse.dropWhile
      Char.isWhitespace).reverse : List Char)⟩

/-- `reqwest::StatusCode::is_success()`: 2xx statuses. -/
def isSuccess (status : Nat) : Bool :=
  200 ≤ status && status < 300

/-- Display of a status in an error message.  (Rust's `StatusCode`
`Display` also appends the canonical reason phrase; only the presence of
the numeric status matters to the claims, so we render the number.) -/
def statusText (status : Nat) : String :=
  toString status

/-- A network exchange as seen by the caller: either the request could
not be completed (`reqwest` returns `Err`), or an HTTP response arrived
with a status and a body, the body already decoded into the fields the
code extracts from it. -/
inductive Transport (β : Type) where
  | failure (msg : String)
  | response (status : Nat) (body : β)
deriving DecidableEq

/-- `GithubState` from `src/github.rs` (organization membership state). -/
inductive GithubState where
  | Pending
  | Active
deriving DecidableEq

/-- `GithubRole` from `src/github.rs`. -/
inductive GithubRole where
  | Member
  | Admin
  | Billing
deriving DecidableEq

/-- `GithubError` from `src/github.rs`. -/
inductive GithubError where
  | NotFound
  | Unauthorized
  | Forbidden
  | InvalidUser (info : String)
  | Other (info : String)
deriving DecidableEq

/-- `GithubUser` from `src/github.rs`. -/
structure GithubUser where
  state : GithubState
  role : GithubRole
  org : String
  pat : String
  username : String
deriving DecidableEq

/-- Result of running a fallible piece of Rust: a value, a typed
`GithubError`, or a process panic (`unwrap` on a missing value). -/
inductive GhResult (α : Type) where
  | ok (a : α)
  | err (e : GithubError)
  | panic (msg : String)
deriving DecidableEq

/-- Parsed JSON body of the device-code endpoint: the two string fields
the code extracts, each possibly absent. -/
structure DeviceCodeBody where
  device_code : Option String
  user_code : Option String
deriving DecidableEq

/-- Parsed JSON body of the token endpoint: `access_token` if present
as a string. -/
structure TokenBody where
  access_token : Option String
deriving DecidableEq

/-- Parsed JSON body of the `/user` endpoint: `login` if present. -/
structure UserBody where
  login : Option String
deriving DecidableEq

/-- Body of the organization-membership endpoint: the raw text (used in
error messages) and, when the text deserializes as a `GithubUser`, the
two fields serde fills in (`state`, `role`). -/
structure MembershipBody where
  text : String
  parsed : Option (GithubState × GithubRole)
deriving DecidableEq

/-- `get_auth_code` from `src/github.rs`: request a device/user code
pair.  On a success status the code unwraps `device_code` and
`user_code` out of the JSON, panicking when either is absent. -/
def get_auth_code (resp : Transport DeviceCodeBody) :
    GhResult (String × String) :=
  match resp with
  | .failure msg =>
      .err (.Other ("Failed to send request for device code: " ++ msg))
  | .response status body =>
      if isSuccess status then
        match body.device_code with
        | none => .panic "called Option::unwrap() on a None value"
        | some dc =>
            match body.user_code with
            | none => .panic "called Option::unwrap() on a None value"
            | some uc => .ok (dc, uc)
      else if status == 401 then .err .Unauthorized
      else if status == 403 then .err .Forbidden
      else .err (.Other ("Unexpected error: " ++ statusText status))

/-- `check_username` from `src/github.rs`: resolve the token to a remote
identity and compare its login (ASCII-lowercased) with the claimed
username. -/
def check_username (username : String) (resp : Transport UserBody) :
    GhResult Unit :=
  match resp with
  | .failure msg =>
      .err (.Other ("Failed to send request for user info: " ++ msg))
  | .response status body =>
      if isSuccess status then
        match body.login with
        | none => .panic "called Option::unwrap() on a None value"
        | some l =>
            let login := asciiLower l
            if login == username then .ok ()
            else
              .err (.InvalidUser
                ("Username does not match: " ++ username ++ " != " ++ login))
      else if status == 401 then .err .Unauthorized
      else if status == 403 then .err .Forbidden
      else .err (.Other ("Unexpected error at username: " ++ statusText status))

/-- `GithubUser::from_pat` from `src/github.rs`: organization-membership
lookup; on a 200 the body is deserialized (panicking if it does not
parse) and the remaining fields are filled in. -/
def from_pat (pat username org : String) (resp : Transport MembershipBody) :
    GhResult GithubUser :=
  match resp with
  | .failure msg =>
      .err (.Other ("Failed to send request for memberships: " ++ msg))
  | .response status body =>
      if status == 200 then
        match body.parsed with
        | none => .panic "called Result::unwrap() on an Err value"
        | some (st, ro) =>
            .ok { state := st, role := ro, org := org, pat := pat,
                  username := username }
      else if status == 404 then .err .NotFound
      else if status == 401 then .err .Unauthorized
      else if status == 403 then .err .Forbidden
      else .err (.Other ("Unexpected error at pat: " ++ body.text))

/-- `GithubUser::from_device_code` from `src/github.rs`: redeem the
device code for an access token, verify the identity, then perform the
membership lookup. -/
def from_device_code (_device_code _client_id username org : String)
    (tokenResp : Transport TokenBody) (userResp : Transport UserBody)
    (memResp : Transport MembershipBody) : GhResult GithubUser :=
  match tokenResp with
  | .failure msg =>
      .err (.Other ("Failed to send request for access token: " ++ msg))
  | .response status body =>
      if isSuccess status then
        match body.access_token with
        | none => .err .Unauthorized
        | some tok =>
            match check_username username userResp with
            | .err e => .err e
            | .panic m => .panic m
            | .ok _ => from_pat tok username org memResp
      else if status == 401 then .err .Unauthorized
      else if status == 403 then .err .Forbidden
      else
        .err (.Other ("Unexpected error at device code: " ++ statusText status))

/-- `GithubUser::is_in_team` from `src/github.rs`: a connection failure
propagates (`?`), any response maps a 2xx status to `true` and every
other status to `false`. -/
def is_in_team (_user : GithubUser) (_team : String)
    (resp : Transport Unit) : Except String Bool :=
  match resp with
  | .failure msg => .error msg
  | .response status _ => .ok (isSuccess status)

/-- `GithubUser::get_keys` from `src/github.rs`: fetch the public keys
text for the user. -/
def get_keys (_user : GithubUser) (resp : Transport String) :
    GhResult String :=
  match resp with
  | .failure msg =>
      .err (.Other ("Failed to send request for keys: " ++ msg))
  | .response status body =>
      if isSuccess status then .ok body
      else if status == 404 then .err .NotFound
      else if status == 401 then .err .Unauthorized
      else if status == 403 then .err .Forbidden
      else .err (.Other ("Unexpected error at keys: " ++ statusText status))

/-! ## `src/user.rs`: account provisioning -/

/-- Outcome of one `std::process::Command` invocation: the spawn itself
can fail, or the command runs and reports an exit status and stderr. -/
inductive CmdResult where
  | spawnErr (msg : String)
  | done (success : Bool) (stderr : String)
deriving DecidableEq

/-- The system-level facts and command outcomes `ensure_user_exists` and
`add_user_to_sudoers` observe, in the order the code consults them. -/
structure UserEnv where
  idCmd : CmdResult
  useraddCmd : CmdResult
  sshDirExists : Bool
  mkdirCmd : CmdResult
  authKeysExists : Bool
  touchCmd : CmdResult
  chmodSshCmd : CmdResult
  chmodKeysCmd : CmdResult
  chownCmd : CmdResult
  sudoersFileExists : Bool
  writeSudoersCmd : CmdResult
  visudoCmd : CmdResult
deriving DecidableEq

/-- Map a `CmdResult` the way the Rust code maps a `Command` outcome:
spawn error and non-success exit both become `Err` with the given
message prefixes; success continues. -/
def cmdStep (spawnMsg failMsg : String) (c : CmdResult) :
    Except String Unit :=
  match c with
  | .spawnErr m => .error (spawnMsg ++ m)
  | .done true _ => .ok ()
  | .done false e => .error (failMsg ++ e)

/-- `add_user_to_sudoers` from `src/user.rs`. -/
def add_user_to_sudoers (_username : String) (env : UserEnv) :
    Except String Unit :=
  if env.sudoersFileExists then .ok ()
  else
    match cmdStep "Failed to create sudoers file: "
        "Failed to create sudoers file: " env.writeSudoersCmd with
    | .error e => .error e
    | .ok _ =>
        match cmdStep "Failed to verify sudoers file: "
            "Invalid sudoers syntax: " env.visudoCmd with
        | .error e => .error e
        | .ok _ => .ok ()

/-- `ensure_user_exists` from `src/user.rs`.  Note that a failure of the
sudoers step is logged and swallowed: the function still returns
`Ok(false)`. -/
def ensure_user_exists (username : String) (add_sudo : Bool)
    (env : UserEnv) : Except String Bool :=
  let user_exists :=
    match env.idCmd with
    | .spawnErr _ => false
    | .done s _ => s
  if user_exists then .ok true
  else
    match cmdStep "Failed to execute useradd: " "Failed to create user: "
        env.useraddCmd with
    | .error e => .error e
    | .ok _ =>
    match (if env.sshDirExists then .ok () else
        cmdStep "Failed to create .ssh directory: "
          "Failed to create .ssh directory: " env.mkdirCmd) with
    | .error e => .error e
    | .ok _ =>
    match (if env.authKeysExists then .ok () else
        cmdStep "Failed to create authorized_keys file: "
          "Failed to create authorized_keys file: " env.touchCmd) with
    | .error e => .error e
    | .ok _ =>
    match cmdStep "Failed to set permissions on .ssh directory: "
        "Failed to set permissions on .ssh directory: " env.chmodSshCmd with
    | .error e => .error e
    | .ok _ =>
    match cmdStep "Failed to set permissions on authorized_keys file: "
        "Failed to set permissions on authorized_keys file: "
        env.chmodKeysCmd with
    | .error e => .error e
    | .ok _ =>
    match cmdStep "Failed to execute chown: " "Failed to set ownership: "
        env.chownCmd with
    | .error e => .error e
    | .ok _ =>
      -- The sudoers step's failure is only logged; it never fails the call.
      let _sudoersResult :=
        if add_sudo then some (add_user_to_sudoers username env) else none
      .ok false

/-- `add_authorized_key` from `src/user.rs`. -/
def add_authorized_key (_username _key : String) (cmd : CmdResult) :
    Except String Unit :=
  cmdStep "Failed to add key to authorized_keys: "
    "Failed to add key to authorized_keys: " cmd

/-! ## `src/lib.rs`: argument parsing and the PAM orchestrator -/

/-- Split a character list at the first `=`, as Rust's
`arg.find('=')` followed by `split_at` does (the `=` itself dropped
from the value). -/
def splitAtEq : List Char → Option (List Char × List Char)
  | [] => none
  | c :: cs =>
      if c == '=' then some ([], cs)
      else
        match splitAtEq cs with
        | none => none
        | some (k, v) => some (c :: k, v)

/-- One `argv` token as `parse_args` classifies it: `key=value` pairs
split at the first `=`, anything without `=` is a flag. -/
def parseArg (a : String) : Option (String × String) :=
  match splitAtEq a.data with
  | none => none
  | some (k, v) => some (⟨k⟩, ⟨v⟩)

/-- `parse_args` from `src/lib.rs` as the insertion sequence into the
argument map: all `key=value` pairs in order, then all flags (with empty
values).  A later insertion of the same key overwrites an earlier one,
which lookup (`argsGet`) models by scanning from the right. -/
def parse_args (argv : List String) : List (String × String) :=
  (argv.filterMap parseArg) ++
    ((argv.filter (fun a => (parseArg a).isNone)).map (fun a => (a, "")))

/-- `HashMap::get` over the insertion sequence: the last insertion of a
key wins. -/
def argsGet (m : List (String × String)) (k : String) : Option String :=
  match m.reverse.find? (fun p => p.1 == k) with
  | some p => some p.2
  | none => none

/-- The subset of PAM return codes this module produces or forwards. -/
inductive PamReturnCode where
  | SUCCESS
  | SERVICE_ERR
  | USER_UNKNOWN
  | CONV_ERR
  | otherCode (code : Nat)
deriving DecidableEq

/-- What a run of `pam_sm_authenticate` hands back to the host: a PAM
return code, or a Rust panic (the process crashes, no code is
returned). -/
inductive PamOutcome where
  | ret (code : PamReturnCode)
  | panicked (msg : String)
deriving DecidableEq

/-- PAM message styles used by `prompt_user`. -/
inductive MsgStyle where
  | echoOff
  | echoOn
  | errorMsg
  | textInfo
deriving DecidableEq

/-- Observable side effects of a run, in order: host prompts and the
outward calls to the identity provider and the provisioning layer.
(Diagnostic logging is excluded: it never influences control flow.) -/
inductive Event where
  | prompt (text : String) (style : MsgStyle)
  | getAuthCode (client_id : String)
  | fromDeviceCode (device_code client_id username org : String)
  | isInTeam (org team username : String)
  | getKeys (username : String)
  | ensureUser (username : String) (sudoer : Bool)
  | addKey (username : String) (keys : String)
deriving DecidableEq

/-- `true` for a key-fetch event. -/
def Event.isKeyFetch : Event → Bool
  | .getKeys _ => true
  | _ => false

/-- `true` for a key-import event. -/
def Event.isKeyImport : Event → Bool
  | .addKey _ _ => true
  | _ => false

/-- The run environment: the PAM username lookup, one transport result
per endpoint the code contacts (indexed by call count for `get_keys`,
which may be called twice), one host-conversation result per prompt
call, and the provisioning-layer outcomes. -/
structure Env where
  getUserResult : Except PamReturnCode String
  deviceCodeResp : Transport DeviceCodeBody
  tokenResp : Transport TokenBody
  userResp : Transport UserBody
  memResp : Transport MembershipBody
  teamResp : Transport Unit
  keysResp : Nat → Transport String
  promptResp : Nat → Except PamReturnCode String
  userEnv : UserEnv
  addKeyCmd : CmdResult

/-- The device-code instruction text shown to the operator. -/
def devicePrompt (user_code : String) : String :=
  "Please visit https://github.com/login/device and enter the following code: "
    ++ user_code ++
    "\nYou have 10 minutes to complete this step.\n        \nAfter a successful login, press Enter to continue..."

/-- The key-import question shown to the operator. -/
def importQuestion : String :=
  "Do you want to import your SSH keys from GitHub? (y/n) "

/-- `src/lib.rs` lines 275-306: the key-import stage.  The answer is
trimmed and lowercased (twice, as in the source); on an affirmative
answer `get_keys` is called once to test for success and then a second
time, unwrapped, for the text that is imported. -/
def key_import_stage (allow_import_keys : Bool) (username : String)
    (github_user : GithubUser) (env : Env) (tr : List Event) :
    PamOutcome × List Event :=
  if allow_import_keys then
    let tr := tr ++ [Event.prompt importQuestion .echoOn]
    match env.promptResp 2 with
    | .error _ => (.ret .SERVICE_ERR, tr)
    | .ok ans0 =>
        let ans := rustToLower (rustTrim ans0)
        if (rustToLower (rustTrim ans)) != "y" then (.ret .SUCCESS, tr)
        else
          let tr := tr ++ [Event.getKeys github_user.username]
          match get_keys github_user (env.keysResp 0) with
          | .err _ => (.ret .SERVICE_ERR, tr)
          | .panic m => (.panicked m, tr)
          | .ok _ =>
              let tr := tr ++ [Event.getKeys github_user.username]
              match get_keys github_user (env.keysResp 1) with
              | .err _ =>
                  (.panicked "called Result::unwrap() on an Err value", tr)
              | .panic m => (.panicked m, tr)
              | .ok keys =>
                  let tr := tr ++ [Event.addKey username keys]
                  match add_authorized_key username keys env.addKeyCmd with
                  | .error _ => (.ret .SERVICE_ERR, tr)
                  | .ok _ => (.ret .SUCCESS, tr)
  else (.ret .SUCCESS, tr)

/-- `src/lib.rs` lines 259-273: the provisioning stage. -/
def provision_stage (auto_create_user auto_create_user_sudoer
    allow_import_keys : Bool) (username : String)
    (github_user : GithubUser) (env : Env) (tr : List Event) :
    PamOutcome × List Event :=
  if auto_create_user then
    let tr := tr ++ [Event.ensureUser username auto_create_user_sudoer]
    match ensure_user_exists username auto_create_user_sudoer env.userEnv with
    | .error _ => (.ret .SERVICE_ERR, tr)
    | .ok _ =>
        key_import_stage allow_import_keys username github_user env tr
  else key_import_stage allow_import_keys username github_user env tr

/-- `src/lib.rs` lines 249-256: the "Authentication successful" info
prompt; its own failure is fatal. -/
def decided_stage (auto_create_user auto_create_user_sudoer
    allow_import_keys : Bool) (username : String)
    (github_user : GithubUser) (env : Env) (tr : List Event) :
    PamOutcome × List Event :=
  let tr := tr ++ [Event.prompt "Authentication successful" .textInfo]
  match env.promptResp 1 with
  | .error _ => (.ret .SERVICE_ERR, tr)
  | .ok _ =>
      provision_stage auto_create_user auto_create_user_sudoer
        allow_import_keys username github_user env tr

/-- `src/lib.rs` lines 234-306: everything after a successful
redemption, starting with the optional team check. -/
def post_redemption (args : List (String × String))
    (auto_create_user auto_create_user_sudoer allow_import_keys : Bool)
    (username : String) (github_user : GithubUser) (env : Env)
    (tr : List Event) : PamOutcome × List Event :=
  match argsGet args "team" with
  | some team =>
      let tr := tr ++
        [Event.isInTeam github_user.org team github_user.username]
      match is_in_team github_user team env.teamResp with
      | .error _ => (.ret .SERVICE_ERR, tr)
      | .ok false =>
          (.ret .USER_UNKNOWN, tr ++
            [Event.prompt "User is not in the specified team" .errorMsg])
      | .ok true =>
          decided_stage auto_create_user auto_create_user_sudoer
            allow_import_keys username github_user env tr
  | none =>
      decided_stage auto_create_user auto_create_user_sudoer
        allow_import_keys username github_user env tr

/-- `pam_sm_authenticate` from `src/lib.rs`, as a function of the parsed
`argv` tokens and the run environment, returning the host-facing outcome
and the ordered side effects. -/
def pam_sm_authenticate (argv : List String) (env : Env) :
    PamOutcome × List Event :=
  let args := parse_args argv
  match argsGet args "org" with
  | none => (.ret .SERVICE_ERR, [])
  | some org =>
  match argsGet args "client_id" with
  | none => (.ret .SERVICE_ERR, [])
  | some client_id =>
  let auto_create_user := (argsGet args "auto_create_user").isSome
  let auto_create_user_sudoer :=
    argsGet args "auto_create_user" == some "sudoer"
  let allow_import_keys := (argsGet args "allow_import_keys").isSome
  match env.getUserResult with
  | .error code => (.ret code, [])
  | .ok rawName =>
  let username := asciiLower rawName
  let tr := [Event.getAuthCode client_id]
  match get_auth_code env.deviceCodeResp with
  | .panic m => (.panicked m, tr)
  | .err _ => (.ret .SERVICE_ERR, tr)
  | .ok (device_code, user_code) =>
  let tr := tr ++ [Event.prompt (devicePrompt user_code) .echoOff]
  match env.promptResp 0 with
  | .error _ => (.ret .SERVICE_ERR, tr)
  | .ok _ =>
  let device_code := rustTrim device_code
  let tr := tr ++ [Event.fromDeviceCode device_code client_id username org]
  match from_device_code device_code client_id username org
      env.tokenResp env.userResp env.memResp with
  | .panic m => (.panicked m, tr)
  | .err .NotFound =>
      (.ret .USER_UNKNOWN, tr ++
        [Event.prompt "User not found in organization" .errorMsg])
  | .err (.InvalidUser _) => (.ret .USER_UNKNOWN, tr)
  | .err .Unauthorized =>
      (.ret .USER_UNKNOWN, tr ++
        [Event.prompt "Unauthorized access" .errorMsg])
  | .err .Forbidden => (.ret .SERVICE_ERR, tr)
  | .err (.Other _) => (.ret .SERVICE_ERR, tr)
  | .ok github_user =>
      post_redemption args auto_create_user auto_create_user_sudoer
        allow_import_keys username github_user env tr

/-! ## Concrete environments used by witnesses -/

/-- A provisioning environment in which every system step succeeds and
the account does not yet exist. -/
def baseUserEnv : UserEnv where
  idCmd := .done false ""
  useraddCmd := .done true ""
  sshDirExists := false
  mkdirCmd := .done true ""
  authKeysExists := false
  touchCmd := .done true ""
  chmodSshCmd := .done true ""
  chmodKeysCmd := .done true ""
  chownCmd := .done true ""
  sudoersFileExists := false
  writeSudoersCmd := .done true ""
  visudoCmd := .done true ""

/-- A run environment in which every exchange succeeds: the PAM user is
`Alice`, the provider resolves the token to login `ALICE`, membership is
active, and every prompt is answered with `y`. -/
def baseEnv : Env where
  getUserResult := .ok "Alice"
  deviceCodeResp := .response 200 ⟨some "dev-code", some "USER-CODE"⟩
  tokenResp := .response 200 ⟨some "tok"⟩
  userResp := .response 200 ⟨some "ALICE"⟩
  memResp := .response 200 ⟨"mem-body", some (.Active, .Member)⟩
  teamResp := .response 200 ()
  keysResp := fun _ => .response 200 "ssh-ed25519 AAAA"
  promptResp := fun _ => .ok "y"
  userEnv := baseUserEnv
  addKeyCmd := .done true ""

/-! ## Claims -/

/-- C2: if the argument map lacks `org` or lacks `client_id`,
`pam_sm_authenticate` returns `SERVICE_ERR` with an empty side-effect
trace: no identity-provider call and no host-callback prompt occurs. -/
theorem C2_missing_required_parameter (argv : List String) (env : Env)
    (h : argsGet (parse_args argv) "org" = none ∨
         argsGet (parse_args argv) "client_id" = none) :
    pam_sm_authenticate argv env = (.ret .SERVICE_ERR, []) := by
  unfold pam_sm_authenticate
  rcases h with h | h
  · simp [h]
  · cases horg : argsGet (parse_args argv) "org" <;> simp [horg, h]

/-- Closed instance of `C2_missing_required_parameter`: with only
`client_id` supplied the run ends in `SERVICE_ERR` with no side
effects. -/
theorem C2_missing_required_parameter_witness :
    argsGet (parse_args ["client_id=abc"]) "org" = none ∧
    pam_sm_authenticate ["client_id=abc"] baseEnv =
      (.ret .SERVICE_ERR, []) :=
  ⟨by decide,
   C2_missing_required_parameter ["client_id=abc"] baseEnv
     (Or.inl (by decide))⟩

/-- C1: whenever the flow reaches token redemption and
`from_device_code` returns an error, the orchestrator maps `NotFound`,
`InvalidUser` and `Unauthorized` to `USER_UNKNOWN` and `Forbidden`/
`Other` to `SERVICE_ERR`; no redemption error yields `SUCCESS`. -/
theorem C1_redemption_error_mapping (argv : List String) (env : Env)
    (org cid name dc uc resp : String) (e : GithubError)
    (horg : argsGet (parse_args argv) "org" = some org)
    (hcid : argsGet (parse_args argv) "client_id" = some cid)
    (huser : env.getUserResult = .ok name)
    (hcode : get_auth_code env.deviceCodeResp = .ok (dc, uc))
    (hp : env.promptResp 0 = .ok resp)
    (hred : from_device_code (rustTrim dc) cid (asciiLower name) org
        env.tokenResp env.userResp env.memResp = .err e) :
    (pam_sm_authenticate argv env).1 =
      .ret (match e with
        | .NotFound => .USER_UNKNOWN
        | .InvalidUser _ => .USER_UNKNOWN
        | .Unauthorized => .USER_UNKNOWN
        | .Forbidden => .SERVICE_ERR
        | .Other _ => .SERVICE_ERR) ∧
    (pam_sm_authenticate argv env).1 ≠ .ret .SUCCESS := by
  unfold pam_sm_authenticate
  simp only [horg, hcid, huser, hcode, hp, hred]
  cases e <;> simp

/-- Closed instance of `C1_redemption_error_mapping`: a 401 token
response makes redemption fail with `Unauthorized` and the run end in
`USER_UNKNOWN`. -/
theorem C1_redemption_error_mapping_witness :
    (pam_sm_authenticate ["org=o", "client_id=c"]
        { baseEnv with tokenResp := .response 401 ⟨none⟩ }).1 =
      .ret .USER_UNKNOWN ∧
    (pam_sm_authenticate ["org=o", "client_id=c"]
        { baseEnv with tokenResp := .response 401 ⟨none⟩ }).1 ≠
      .ret .SUCCESS :=
  C1_redemption_error_mapping ["org=o", "client_id=c"]
    { baseEnv with tokenResp := .response 401 ⟨none⟩ }
    "o" "c" "Alice" "dev-code" "USER-CODE" "y" .Unauthorized
    (by decide) (by decide) rfl rfl rfl (by decide)

/-- C3 counterexample: on a success-status response whose JSON body
lacks `device_code`, `get_auth_code` panics (the code unwraps the
missing field); it does not produce any typed error value, and no
`ProtocolError` kind exists in the code. -/
theorem C3_missing_field_panics_counterexample :
    get_auth_code (.response 200 ⟨none, some "ucode"⟩) =
      .panic "called Option::unwrap() on a None value" ∧
    get_auth_code (.response 200 ⟨some "dcode", none⟩) =
      .panic "called Option::unwrap() on a None value" :=
  ⟨rfl, rfl⟩

/-- C3 (amended): `get_auth_code` maps a 401 to `Unauthorized`, a 403 to
`Forbidden`, a transport failure to a transport-failure `Other` error,
a success response carrying both fields to the code pair, and a success
response lacking `device_code` or `user_code` to a panic (unwrap on the
missing field), not to a typed error. -/
theorem C3_device_code_request_mapping :
    (∀ msg, get_auth_code (.failure msg) =
      .err (.Other ("Failed to send request for device code: " ++ msg))) ∧
    (∀ body, get_auth_code (.response 401 body) = .err .Unauthorized) ∧
    (∀ body, get_auth_code (.response 403 body) = .err .Forbidden) ∧
    (∀ status body, isSuccess status = true →
      (body.device_code = none ∨ body.user_code = none) →
      get_auth_code (.response status body) =
        .panic "called Option::unwrap() on a None value") ∧
    (∀ status dc uc, isSuccess status = true →
      get_auth_code (.response status (⟨some dc, some uc⟩ : DeviceCodeBody))
        = .ok (dc, uc)) := by
  refine ⟨fun msg => rfl, fun body => rfl, fun body => rfl, ?_, ?_⟩
  · intro status body hs hmiss
    rcases body with ⟨dc, uc⟩
    rcases hmiss with h | h <;> subst h
    · simp [get_auth_code, hs]
    · cases dc <;> simp [get_auth_code, hs]
  · intro status dc uc hs
    simp [get_auth_code, hs]

/-- Closed instance of `C3_device_code_request_mapping`: transport
failure and missing-field cases at concrete inputs. -/
theorem C3_device_code_request_mapping_witness :
    get_auth_code (.failure "timeout") =
      .err (.Other ("Failed to send request for device code: " ++ "timeout"))
    ∧ get_auth_code (.response 200 ⟨none, none⟩) =
      .panic "called Option::unwrap() on a None value" ∧
    get_auth_code (.response 200 (⟨some "d", some "u"⟩ : DeviceCodeBody)) =
      .ok ("d", "u") :=
  ⟨C3_device_code_request_mapping.1 "timeout",
   C3_device_code_request_mapping.2.2.2.1 200 ⟨none, none⟩ (by decide)
     (Or.inl rfl),
   C3_device_code_request_mapping.2.2.2.2 200 "d" "u" (by decide)⟩

/-- C4 counterexample: a 404 at the token endpoint itself is mapped by
`from_device_code` to a generic `Other` error, not to `NotFound` as the
claim's uniform 404 rule would require. -/
theorem C4_token_endpoint_404_counterexample :
    from_device_code "d" "c" "u" "o" (.response 404 ⟨none⟩)
        (.response 200 ⟨some "u"⟩)
        (.response 200 ⟨"", some (.Active, .Member)⟩) =
      .err (.Other ("Unexpected error at device code: " ++ statusText 404))
    ∧ from_device_code "d" "c" "u" "o" (.response 404 ⟨none⟩)
        (.response 200 ⟨some "u"⟩)
        (.response 200 ⟨"", some (.Active, .Member)⟩) ≠
      .err .NotFound := by
  constructor
  · rfl
  · intro h
    simp [from_device_code, isSuccess] at h

/-- C4 (amended): at the token endpoint 401 maps to `Unauthorized`, 403
to `Forbidden`, and every other non-success status (404 included) to a
transport-failure error carrying the status; a success-status token
response with no `access_token` yields `Unauthorized`.  The membership
lookup (`from_pat`) maps 404 to `NotFound`, 401 to `Unauthorized`, 403
to `Forbidden`, and every other non-200 status to a transport-failure
error carrying the response text. -/
theorem C4_redemption_status_mapping :
    (∀ d c u o uR mR (body : TokenBody),
      from_device_code d c u o (.response 401 body) uR mR =
        .err .Unauthorized) ∧
    (∀ d c u o uR mR (body : TokenBody),
      from_device_code d c u o (.response 403 body) uR mR =
        .err .Forbidden) ∧
    (∀ d c u o uR mR status (body : TokenBody),
      isSuccess status = false → status ≠ 401 → status ≠ 403 →
      from_device_code d c u o (.response status body) uR mR =
        .err (.Other ("Unexpected error at device code: " ++
          statusText status))) ∧
    (∀ d c u o uR mR status,
      isSuccess status = true →
      from_device_code d c u o (.response status ⟨none⟩) uR mR =
        .err .Unauthorized) ∧
    (∀ p u o (body : MembershipBody),
      from_pat p u o (.response 404 body) = .err .NotFound) ∧
    (∀ p u o (body : MembershipBody),
      from_pat p u o (.response 401 body) = .err .Unauthorized) ∧
    (∀ p u o (body : MembershipBody),
      from_pat p u o (.response 403 body) = .err .Forbidden) ∧
    (∀ p u o status (body : MembershipBody),
      status ≠ 200 → status ≠ 404 → status ≠ 401 → status ≠ 403 →
      from_pat p u o (.response status body) =
        .err (.Other ("Unexpected error at pat: " ++ body.text))) := by
  refine ⟨fun d c u o uR mR body => rfl, fun d c u o uR mR body => rfl,
    ?_, ?_, fun p u o body => rfl, fun p u o body => rfl,
    fun p u o body => rfl, ?_⟩
  · intro d c u o uR mR status body hs h1 h3
    simp [from_device_code, hs, h1, h3]
  · intro d c u o uR mR status hs
    simp [from_device_code, hs]
  · intro p u o status body h0 h4 h1 h3
    simp [from_pat, h0, h4, h1, h3]

/-- Closed instance of `C4_redemption_status_mapping`: a 500 at the
token endpoint, a missing access token, and a 404/500 at the membership
endpoint. -/
theorem C4_redemption_status_mapping_witness :
    from_device_code "d" "c" "u" "o" (.response 500 ⟨some "t"⟩)
        (.response 200 ⟨some "u"⟩) (.response 200 ⟨"", none⟩) =
      .err (.Other ("Unexpected error at device code: " ++ statusText 500))
    ∧ from_device_code "d" "c" "u" "o" (.response 200 ⟨none⟩)
        (.response 200 ⟨some "u"⟩) (.response 200 ⟨"", none⟩) =
      .err .Unauthorized ∧
    from_pat "t" "u" "o" (.response 404 ⟨"nf", none⟩) = .err .NotFound ∧
    from_pat "t" "u" "o" (.response 500 (⟨"boom", none⟩ : MembershipBody)) =
      .err (.Other ("Unexpected error at pat: " ++ "boom")) :=
  ⟨C4_redemption_status_mapping.2.2.1 "d" "c" "u" "o"
     (.response 200 ⟨some "u"⟩) (.response 200 ⟨"", none⟩) 500 ⟨some "t"⟩
     (by decide) (by decide) (by decide),
   C4_redemption_status_mapping.2.2.2.1 "d" "c" "u" "o"
     (.response 200 ⟨some "u"⟩) (.response 200 ⟨"", none⟩) 200 (by decide),
   C4_redemption_status_mapping.2.2.2.2.1 "t" "u" "o" ⟨"nf", none⟩,
   C4_redemption_status_mapping.2.2.2.2.2.2.2 "t" "u" "o" 500 ⟨"boom", none⟩
     (by decide) (by decide) (by decide) (by decide)⟩

/-- `from_pat` never produces an `InvalidUser` error: its error kinds
are `NotFound`, `Unauthorized`, `Forbidden` and `Other` only. -/
theorem from_pat_not_invalidUser (p u o : String)
    (r : Transport MembershipBody) (info : String) :
    from_pat p u o r ≠ .err (.InvalidUser info) := by
  unfold from_pat
  rcases r with msg | ⟨s, b⟩
  · simp
  · rcases hb : b.parsed with _ | ⟨st, ro⟩ <;>
      simp only [hb] <;> (repeat' split) <;> simp

/-- C5: on a successful token exchange (success status, access token
present) and a successful identity lookup (success status, login
present), `from_device_code` fails with `InvalidUser` exactly when the
resolved login differs case-insensitively from the claimed username
passed to it (which the orchestrator always passes ASCII-lowercased,
hence the hypothesis); when they agree ignoring case the flow proceeds
to the membership lookup, which never yields `InvalidUser`. -/
theorem C5_claimed_username_check (dc cid u org tok login : String)
    (ts us : Nat) (memResp : Transport MembershipBody)
    (hu : asciiLower u = u)
    (hts : isSuccess ts = true)
    (hus : isSuccess us = true) :
    (asciiLower login ≠ asciiLower u →
      from_device_code dc cid u org (.response ts ⟨some tok⟩)
          (.response us ⟨some login⟩) memResp =
        .err (.InvalidUser ("Username does not match: " ++ u ++ " != "
          ++ asciiLower login))) ∧
    (asciiLower login = asciiLower u →
      from_device_code dc cid u org (.response ts ⟨some tok⟩)
          (.response us ⟨some login⟩) memResp =
        from_pat tok u org memResp ∧
      ∀ info, from_pat tok u org memResp ≠ .err (.InvalidUser info)) := by
  constructor
  · intro hne
    rw [hu] at hne
    have hb : (asciiLower login == u) = false := beq_eq_false_iff_ne.mpr hne
    simp [from_device_code, check_username, hts, hus, hb]
  · intro heq
    rw [hu] at heq
    refine ⟨?_, fun info => from_pat_not_invalidUser tok u org memResp info⟩
    simp [from_device_code, check_username, hts, hus, heq]

/-- Closed instance of `C5_claimed_username_check`: login `ALICE`
matches claimed `alice` and the flow proceeds to the membership lookup;
login `Bob` does not and redemption fails with `InvalidUser`. -/
theorem C5_claimed_username_check_witness :
    from_device_code "d" "c" "alice" "o" (.response 200 ⟨some "t"⟩)
        (.response 200 ⟨some "ALICE"⟩)
        (.response 200 ⟨"", some (.Active, .Member)⟩) =
      from_pat "t" "alice" "o"
        (.response 200 ⟨"", some (.Active, .Member)⟩) ∧
    from_device_code "d" "c" "alice" "o" (.response 200 ⟨some "t"⟩)
        (.response 200 ⟨some "Bob"⟩)
        (.response 200 ⟨"", some (.Active, .Member)⟩) =
      .err (.InvalidUser ("Username does not match: " ++ "alice" ++ " != "
        ++ asciiLower "Bob")) :=
  ⟨((C5_claimed_username_check "d" "c" "alice" "o" "t" "ALICE" 200 200
      (.response 200 ⟨"", some (.Active, .Member)⟩) rfl (by decide)
      (by decide)).2 (by decide)).1,
   (C5_claimed_username_check "d" "c" "alice" "o" "t" "Bob" 200 200
      (.response 200 ⟨"", some (.Active, .Member)⟩) rfl (by decide)
      (by decide)).1 (by decide)⟩

/-- C6: `is_in_team` maps every HTTP response to `Ok` of whether the
status was 2xx (so any non-2xx response yields `Ok false`, never an
error) and only a connection-level failure to `Err`; in the
orchestrator, with a `team` parameter supplied and redemption already
successful, an `Ok false` result ends the run in `USER_UNKNOWN` and a
propagated `Err` ends it in `SERVICE_ERR`. -/
theorem C6_team_membership_handling (argv : List String) (env : Env)
    (org cid name dc uc resp team : String) (guser : GithubUser)
    (horg : argsGet (parse_args argv) "org" = some org)
    (hcid : argsGet (parse_args argv) "client_id" = some cid)
    (huser : env.getUserResult = .ok name)
    (hcode : get_auth_code env.deviceCodeResp = .ok (dc, uc))
    (hp : env.promptResp 0 = .ok resp)
    (hred : from_device_code (rustTrim dc) cid (asciiLower name) org
        env.tokenResp env.userResp env.memResp = .ok guser)
    (hteam : argsGet (parse_args argv) "team" = some team) :
    (∀ u t status b, is_in_team u t (.response status b) =
      .ok (isSuccess status)) ∧
    (∀ u t msg, is_in_team u t (.failure msg) = .error msg) ∧
    (is_in_team guser team env.teamResp = .ok false →
      (pam_sm_authenticate argv env).1 = .ret .USER_UNKNOWN) ∧
    (∀ msg, is_in_team guser team env.teamResp = .error msg →
      (pam_sm_authenticate argv env).1 = .ret .SERVICE_ERR) := by
  refine ⟨fun u t status b => rfl, fun u t msg => rfl, ?_, ?_⟩
  · intro h
    unfold pam_sm_authenticate post_redemption
    simp only [horg, hcid, huser, hcode, hp, hred, hteam, h]
  · intro msg h
    unfold pam_sm_authenticate post_redemption
    simp only [horg, hcid, huser, hcode, hp, hred, hteam, h]

/-- Closed instance of `C6_team_membership_handling`: a 404 from the
team endpoint yields `Ok false` and the run ends in `USER_UNKNOWN`. -/
theorem C6_team_membership_handling_witness :
    is_in_team ⟨.Active, .Member, "o", "tok", "alice"⟩ "plat"
      (.response 404 ()) = .ok false ∧
    (pam_sm_authenticate ["org=o", "client_id=c", "team=plat"]
        { baseEnv with teamResp := .response 404 () }).1 =
      .ret .USER_UNKNOWN :=
  ⟨rfl,
   (C6_team_membership_handling ["org=o", "client_id=c", "team=plat"]
      { baseEnv with teamResp := .response 404 () }
      "o" "c" "Alice" "dev-code" "USER-CODE" "y" "plat"
      ⟨.Active, .Member, "o", "tok", "alice"⟩
      (by decide) (by decide) rfl rfl rfl (by decide)
      (by decide)).2.2.1 rfl⟩

/-- The run reaches the post-redemption phase: both required parameters
are present, the PAM username lookup, the device-code request and the
synchronization prompt succeed, and redemption returns a user. -/
def ReachesPostRedemption (argv : List String) (env : Env)
    (org cid name dc uc resp : String) (guser : GithubUser) : Prop :=
  argsGet (parse_args argv) "org" = some org ∧
  argsGet (parse_args argv) "client_id" = some cid ∧
  env.getUserResult = .ok name ∧
  get_auth_code env.deviceCodeResp = .ok (dc, uc) ∧
  env.promptResp 0 = .ok resp ∧
  from_device_code (rustTrim dc) cid (asciiLower name) org
    env.tokenResp env.userResp env.memResp = .ok guser

/-- The team gate passes: whenever a `team` parameter is configured,
the team-membership lookup returns `Ok(true)`. -/
def TeamGatePasses (argv : List String) (env : Env)
    (guser : GithubUser) : Prop :=
  ∀ t, argsGet (parse_args argv) "team" = some t →
    is_in_team guser t env.teamResp = .ok true

/-- Provisioning passes whenever it is requested. -/
def ProvisioningPasses (argv : List String) (env : Env)
    (name : String) : Prop :=
  (argsGet (parse_args argv) "auto_create_user").isSome = true →
    ∃ b, ensure_user_exists (asciiLower name)
      (argsGet (parse_args argv) "auto_create_user" == some "sudoer")
      env.userEnv = Except.ok b

/-- C7 counterexample: with `auto_create_user=sudoer`, a failure of the
sudoers grant (here: `visudo` rejects the file) is swallowed inside
provisioning — `add_user_to_sudoers` fails, yet the attempt returns
`SUCCESS`, contradicting "never returns success when the requested
administrative-privilege grant was not completed". -/
theorem C7_sudoer_grant_failure_counterexample :
    add_user_to_sudoers "alice"
        { baseUserEnv with visudoCmd := .done false "bad syntax" } =
      .error ("Invalid sudoers syntax: " ++ "bad syntax") ∧
    (pam_sm_authenticate ["org=o", "client_id=c", "auto_create_user=sudoer"]
        { baseEnv with
            userEnv := { baseUserEnv with
              visudoCmd := .done false "bad syntax" } }).1 =
      .ret .SUCCESS :=
  ⟨rfl, rfl⟩

/-- C7 (amended): a provisioning failure reported by
`ensure_user_exists`, or a key-import failure reported by
`add_authorized_key`, occurring after a successful authorization
decision, downgrades the attempt to `SERVICE_ERR`.  However, with the
sudoer flag, a failure of the administrative-privilege grant itself is
logged and swallowed inside `ensure_user_exists` (which still returns
`Ok(false)`), so it does not prevent a `SUCCESS` outcome. -/
theorem C7_post_auth_failure_handling :
    (∀ argv env org cid name dc uc resp guser s m,
      ReachesPostRedemption argv env org cid name dc uc resp guser →
      TeamGatePasses argv env guser →
      env.promptResp 1 = .ok s →
      (argsGet (parse_args argv) "auto_create_user").isSome = true →
      ensure_user_exists (asciiLower name)
          (argsGet (parse_args argv) "auto_create_user" == some "sudoer")
          env.userEnv = .error m →
      (pam_sm_authenticate argv env).1 = .ret .SERVICE_ERR) ∧
    (∀ argv env org cid name dc uc resp guser s ans k1 keys m,
      ReachesPostRedemption argv env org cid name dc uc resp guser →
      TeamGatePasses argv env guser →
      env.promptResp 1 = .ok s →
      ProvisioningPasses argv env name →
      (argsGet (parse_args argv) "allow_import_keys").isSome = true →
      env.promptResp 2 = .ok ans →
      rustToLower (rustTrim (rustToLower (rustTrim ans))) = "y" →
      get_keys guser (env.keysResp 0) = .ok k1 →
      get_keys guser (env.keysResp 1) = .ok keys →
      add_authorized_key (asciiLower name) keys env.addKeyCmd = .error m →
      (pam_sm_authenticate argv env).1 = .ret .SERVICE_ERR) ∧
    (∀ uname uenv se s1 s2 s3 s4 m,
      uenv.idCmd = .done false se →
      uenv.useraddCmd = .done true s1 →
      uenv.sshDirExists = true →
      uenv.authKeysExists = true →
      uenv.chmodSshCmd = .done true s2 →
      uenv.chmodKeysCmd = .done true s3 →
      uenv.chownCmd = .done true s4 →
      add_user_to_sudoers uname uenv = .error m →
      ensure_user_exists uname true uenv = .ok false) := by
  refine ⟨?_, ?_, ?_⟩
  · intro argv env org cid name dc uc resp guser s m hreach hteam hp1
      hauto herr
    obtain ⟨horg, hcid, huser, hcode, hp, hred⟩ := hreach
    unfold pam_sm_authenticate post_redemption decided_stage provision_stage
    simp only [horg, hcid, huser, hcode, hp, hred]
    cases ht : argsGet (parse_args argv) "team" with
    | none => simp [ht, hp1, hauto, herr]
    | some t =>
        have htm := hteam t ht
        simp [ht, htm, hp1, hauto, herr]
  · intro argv env org cid name dc uc resp guser s ans k1 keys m hreach
      hteam hp1 _hprov hallow hp2 hyes hk0 hk1 haddkey
    obtain ⟨horg, hcid, huser, hcode, hp, hred⟩ := hreach
    unfold pam_sm_authenticate post_redemption decided_stage
      provision_stage key_import_stage
    simp only [horg, hcid, huser, hcode, hp, hred]
    cases ht : argsGet (parse_args argv) "team" with
    | none =>
        cases hA : argsGet (parse_args argv) "auto_create_user" with
        | none =>
            simp [ht, hA, hp1, hallow, hp2, hyes, hk0, hk1, haddkey]
        | some v =>
            simp [ht, hA, hp1, hallow, hp2, hyes, hk0, hk1, haddkey]
            cases ensure_user_exists (asciiLower name) (v == "sudoer")
              env.userEnv <;> rfl
    | some t =>
        have htm := hteam t ht
        cases hA : argsGet (parse_args argv) "auto_create_user" with
        | none =>
            simp [ht, htm, hA, hp1, hallow, hp2, hyes, hk0, hk1, haddkey]
        | some v =>
            simp [ht, htm, hA, hp1, hallow, hp2, hyes, hk0, hk1, haddkey]
            cases ensure_user_exists (asciiLower name) (v == "sudoer")
              env.userEnv <;> rfl
  · intro uname uenv se s1 s2 s3 s4 m hid huseradd hssh hkeys hch1 hch2
      hchown hsudo
    unfold ensure_user_exists
    simp [hid, huseradd, hssh, hkeys, hch1, hch2, hchown, cmdStep]

/-- Closed instance of `C7_post_auth_failure_handling`: a failing
`useradd` downgrades the attempt to `SERVICE_ERR`, and a failing
sudoers grant is swallowed by `ensure_user_exists`. -/
theorem C7_post_auth_failure_handling_witness :
    (pam_sm_authenticate ["org=o", "client_id=c", "auto_create_user"]
        { baseEnv with
            userEnv := { baseUserEnv with
              useraddCmd := .done false "boom" } }).1 =
      .ret .SERVICE_ERR ∧
    ensure_user_exists "alice" true
        { baseUserEnv with
            sshDirExists := true
            authKeysExists := true
            visudoCmd := .done false "bad" } = .ok false := by
  constructor
  · exact C7_post_auth_failure_handling.1
      ["org=o", "client_id=c", "auto_create_user"]
      { baseEnv with
          userEnv := { baseUserEnv with useraddCmd := .done false "boom" } }
      "o" "c" "Alice" "dev-code" "USER-CODE" "y"
      ⟨.Active, .Member, "o", "tok", "alice"⟩ "y"
      ("Failed to create user: " ++ "boom")
      ⟨by decide, by decide, rfl, rfl, rfl, by decide⟩
      (by intro t ht; rw [show argsGet (parse_args
          ["org=o", "client_id=c", "auto_create_user"]) "team" = none
          by decide] at ht; cases ht)
      rfl (by decide) rfl
  · exact C7_post_auth_failure_handling.2.2 "alice"
      { baseUserEnv with
          sshDirExists := true
          authKeysExists := true
          visudoCmd := .done false "bad" }
      "" "" "" "" "" ("Invalid sudoers syntax: " ++ "bad")
      rfl rfl rfl rfl rfl rfl rfl rfl

/-- C8: with `allow_import_keys` configured and authorization
successful, if the operator's answer to the import prompt, trimmed and
lowercased, is anything other than `y`, the run returns `SUCCESS` and
its side-effect trace contains no key fetch and no key import. -/
theorem C8_decline_import (argv : List String) (env : Env)
    (org cid name dc uc resp s ans : String) (guser : GithubUser)
    (hreach : ReachesPostRedemption argv env org cid name dc uc resp guser)
    (hteam : TeamGatePasses argv env guser)
    (hp1 : env.promptResp 1 = .ok s)
    (hprov : ProvisioningPasses argv env name)
    (hallow : (argsGet (parse_args argv) "allow_import_keys").isSome = true)
    (hp2 : env.promptResp 2 = .ok ans)
    (hans : rustToLower (rustTrim (rustToLower (rustTrim ans))) ≠ "y") :
    (pam_sm_authenticate argv env).1 = .ret .SUCCESS ∧
    ((pam_sm_authenticate argv env).2.all
      (fun e => !e.isKeyFetch && !e.isKeyImport)) = true := by
  obtain ⟨horg, hcid, huser, hcode, hp, hred⟩ := hreach
  unfold pam_sm_authenticate post_redemption decided_stage
    provision_stage key_import_stage
  simp only [horg, hcid, huser, hcode, hp, hred]
  cases ht : argsGet (parse_args argv) "team" with
  | none =>
      cases hA : argsGet (parse_args argv) "auto_create_user" with
      | none =>
          simp [ht, hA, hp1, hallow, hp2, bne_iff_ne, hans,
            Event.isKeyFetch, Event.isKeyImport]
      | some v =>
          obtain ⟨b, hb⟩ := hprov (by simp [hA])
          rw [hA] at hb
          simp at hb
          simp [ht, hA, hp1, hallow, hp2, bne_iff_ne, hans, hb,
            Event.isKeyFetch, Event.isKeyImport]
  | some t =>
      have htm := hteam t ht
      cases hA : argsGet (parse_args argv) "auto_create_user" with
      | none =>
          simp [ht, htm, hA, hp1, hallow, hp2, bne_iff_ne, hans,
            Event.isKeyFetch, Event.isKeyImport]
      | some v =>
          obtain ⟨b, hb⟩ := hprov (by simp [hA])
          rw [hA] at hb
          simp at hb
          simp [ht, htm, hA, hp1, hallow, hp2, bne_iff_ne, hans, hb,
            Event.isKeyFetch, Event.isKeyImport]

/-- Closed instance of `C8_decline_import`: the operator answers `n`,
the run returns `SUCCESS`, and the trace holds no key fetch/import. -/
theorem C8_decline_import_witness :
    (pam_sm_authenticate ["org=o", "client_id=c", "allow_import_keys"]
        { baseEnv with
            promptResp := fun n => if n == 2 then .ok "n" else .ok "y"
          }).1 = .ret .SUCCESS ∧
    ((pam_sm_authenticate ["org=o", "client_id=c", "allow_import_keys"]
        { baseEnv with
            promptResp := fun n => if n == 2 then .ok "n" else .ok "y"
          }).2.all
      (fun e => !e.isKeyFetch && !e.isKeyImport)) = true :=
  C8_decline_import ["org=o", "client_id=c", "allow_import_keys"]
    { baseEnv with
        promptResp := fun n => if n == 2 then .ok "n" else .ok "y" }
    "o" "c" "Alice" "dev-code" "USER-CODE" "y" "y" "n"
    ⟨.Active, .Member, "o", "tok", "alice"⟩
    ⟨by decide, by decide, rfl, rfl, rfl, by decide⟩
    (by intro t ht; rw [show argsGet (parse_args
        ["org=o", "client_id=c", "allow_import_keys"]) "team" = none
        by decide] at ht; cases ht)
    rfl
    (fun h => absurd h (by decide))
    (by decide) rfl (by decide)

/-- The phase after redemption never inspects the membership `state`
field of the authenticated user, nor the membership response: it is
definitionally invariant under both. -/
theorem post_redemption_state_irrelevant (args : List (String × String))
    (a b c : Bool) (uname : String) (st1 st2 : GithubState)
    (ro : GithubRole) (o p n : String) (env : Env)
    (m1 m2 : Transport MembershipBody) (tr : List Event) :
    post_redemption args a b c uname ⟨st1, ro, o, p, n⟩
      { env with memResp := m1 } tr =
    post_redemption args a b c uname ⟨st2, ro, o, p, n⟩
      { env with memResp := m2 } tr := rfl

/-- C9: two runs that differ only in the organization-membership state
the provider reports (with the membership lookup succeeding in both)
produce the same outcome and the same side-effect trace: the parsed
`state` field never influences the decision. -/
theorem C9_membership_state_noninterference (argv : List String)
    (env : Env) (text : String) (st1 st2 : GithubState)
    (ro : GithubRole) :
    pam_sm_authenticate argv
      { env with memResp := .response 200 ⟨text, some (st1, ro)⟩ } =
    pam_sm_authenticate argv
      { env with memResp := .response 200 ⟨text, some (st2, ro)⟩ } := by
  simp only [pam_sm_authenticate]
  cases argsGet (parse_args argv) "org" with
  | none => rfl
  | some org =>
  cases argsGet (parse_args argv) "client_id" with
  | none => rfl
  | some cid =>
  cases env.getUserResult with
  | error code => rfl
  | ok name =>
  cases get_auth_code env.deviceCodeResp with
  | panic m => rfl
  | err e => rfl
  | ok pr =>
  cases pr with
  | mk dc uc =>
  cases env.promptResp 0 with
  | error e => rfl
  | ok r =>
  simp only [from_device_code]
  cases env.tokenResp with
  | failure m => rfl
  | response ts tb =>
  dsimp only
  by_cases hts : isSuccess ts = true
  · simp only [hts]
    cases tb.access_token with
    | none => rfl
    | some tok =>
    cases check_username (asciiLower name) env.userResp with
    | err e => rfl
    | panic m => rfl
    | ok u =>
    exact post_redemption_state_irrelevant (parse_args argv)
      ((argsGet (parse_args argv) "auto_create_user").isSome)
      (argsGet (parse_args argv) "auto_create_user" == some "sudoer")
      ((argsGet (parse_args argv) "allow_import_keys").isSome)
      (asciiLower name) st1 st2 ro org tok (asciiLower name) env
      (.response 200 ⟨text, some (st1, ro)⟩)
      (.response 200 ⟨text, some (st2, ro)⟩)
      ([Event.getAuthCode cid] ++ [Event.prompt (devicePrompt uc) .echoOff]
        ++ [Event.fromDeviceCode (rustTrim dc) cid (asciiLower name) org])
  · rw [Bool.not_eq_true] at hts
    simp only [hts]
    by_cases h1 : (ts == 401) = true
    · simp only [h1]; rfl
    · rw [Bool.not_eq_true] at h1
      simp only [h1]
      by_cases h3 : (ts == 403) = true
      · simp only [h3]; rfl
      · rw [Bool.not_eq_true] at h3
        simp only [h3]
        rfl

/-- C10: with `allow_import_keys` configured and an affirmative answer,
`get_keys` is invoked twice: when both calls succeed the trace holds two
key-fetch events and the imported key text is the second call's result
(not the first's), and when the second call fails after the first
succeeded the run panics (unwrap on an `Err`) instead of returning any
host-facing code. -/
theorem C10_double_key_fetch_unwrap (argv : List String) (env : Env)
    (org cid name dc uc resp s ans : String) (guser : GithubUser)
    (hreach : ReachesPostRedemption argv env org cid name dc uc resp guser)
    (hteam : TeamGatePasses argv env guser)
    (hp1 : env.promptResp 1 = .ok s)
    (hprov : ProvisioningPasses argv env name)
    (hallow : (argsGet (parse_args argv) "allow_import_keys").isSome = true)
    (hp2 : env.promptResp 2 = .ok ans)
    (hyes : rustToLower (rustTrim (rustToLower (rustTrim ans))) = "y") :
    (∀ k1 k2, get_keys guser (env.keysResp 0) = .ok k1 →
      get_keys guser (env.keysResp 1) = .ok k2 →
      ((pam_sm_authenticate argv env).2.countP
          (fun e => e.isKeyFetch) = 2 ∧
       Event.addKey (asciiLower name) k2 ∈ (pam_sm_authenticate argv env).2 ∧
       (k1 ≠ k2 → Event.addKey (asciiLower name) k1 ∉
         (pam_sm_authenticate argv env).2))) ∧
    (∀ k1 e, get_keys guser (env.keysResp 0) = .ok k1 →
      get_keys guser (env.keysResp 1) = .err e →
      ((pam_sm_authenticate argv env).1 =
        .panicked "called Result::unwrap() on an Err value" ∧
       ∀ code, (pam_sm_authenticate argv env).1 ≠ .ret code)) := by
  obtain ⟨horg, hcid, huser, hcode, hp, hred⟩ := hreach
  unfold pam_sm_authenticate post_redemption decided_stage
    provision_stage key_import_stage
  simp only [horg, hcid, huser, hcode, hp, hred]
  cases ht : argsGet (parse_args argv) "team" with
  | none =>
      cases hA : argsGet (parse_args argv) "auto_create_user" with
      | none =>
          constructor
          · intro k1 k2 hk0 hk1
            cases hAdd : add_authorized_key (asciiLower name) k2
                env.addKeyCmd <;>
              simp [ht, hA, hp1, hallow, hp2, hyes, hk0, hk1, hAdd,
                Event.isKeyFetch, List.countP_cons, List.countP_nil]
          · intro k1 e hk0 hk1
            refine ⟨?_, fun code => ?_⟩ <;>
              simp [ht, hA, hp1, hallow, hp2, hyes, hk0, hk1]
      | some v =>
          obtain ⟨b, hb⟩ := hprov (by simp [hA])
          rw [hA] at hb
          simp at hb
          constructor
          · intro k1 k2 hk0 hk1
            cases hAdd : add_authorized_key (asciiLower name) k2
                env.addKeyCmd <;>
              simp [ht, hA, hp1, hallow, hp2, hyes, hk0, hk1, hAdd, hb,
                Event.isKeyFetch, List.countP_cons, List.countP_nil]
          · intro k1 e hk0 hk1
            refine ⟨?_, fun code => ?_⟩ <;>
              simp [ht, hA, hp1, hallow, hp2, hyes, hk0, hk1, hb]
  | some t =>
      have htm := hteam t ht
      cases hA : argsGet (parse_args argv) "auto_create_user" with
      | none =>
          constructor
          · intro k1 k2 hk0 hk1
            cases hAdd : add_authorized_key (asciiLower name) k2
                env.addKeyCmd <;>
              simp [ht, htm, hA, hp1, hallow, hp2, hyes, hk0, hk1, hAdd,
                Event.isKeyFetch, List.countP_cons, List.countP_nil]
          · intro k1 e hk0 hk1
            refine ⟨?_, fun code => ?_⟩ <;>
              simp [ht, htm, hA, hp1, hallow, hp2, hyes, hk0, hk1]
      | some v =>
          obtain ⟨b, hb⟩ := hprov (by simp [hA])
          rw [hA] at hb
          simp at hb
          constructor
          · intro k1 k2 hk0 hk1
            cases hAdd : add_authorized_key (asciiLower name) k2
                env.addKeyCmd <;>
              simp [ht, htm, hA, hp1, hallow, hp2, hyes, hk0, hk1, hAdd,
                hb, Event.isKeyFetch, List.countP_cons, List.countP_nil]
          · intro k1 e hk0 hk1
            refine ⟨?_, fun code => ?_⟩ <;>
              simp [ht, htm, hA, hp1, hallow, hp2, hyes, hk0, hk1, hb]

/-- Closed instance of `C10_double_key_fetch_unwrap`: the first key
fetch succeeds, the second fails, and the run panics rather than
returning a PAM code. -/
theorem C10_double_key_fetch_unwrap_witness :
    (pam_sm_authenticate ["org=o", "client_id=c", "allow_import_keys"]
        { baseEnv with
            keysResp := fun n =>
              if n == 0 then .response 200 "key-one" else .failure "boom"
          }).1 =
      .panicked "called Result::unwrap() on an Err value" :=
  ((C10_double_key_fetch_unwrap
      ["org=o", "client_id=c", "allow_import_keys"]
      { baseEnv with
          keysResp := fun n =>
            if n == 0 then .response 200 "key-one" else .failure "boom" }
      "o" "c" "Alice" "dev-code" "USER-CODE" "y" "y" "y"
      ⟨.Active, .Member, "o", "tok", "alice"⟩
      ⟨by decide, by decide, rfl, rfl, rfl, by decide⟩
      (by intro t ht; rw [show argsGet (parse_args
          ["org=o", "client_id=c", "allow_import_keys"]) "team" = none
          by decide] at ht; cases ht)
      rfl
      (fun h => absurd h (by decide))
      (by decide) rfl (by decide)).2 "key-one"
    (.Other ("Failed to send request for keys: " ++ "boom"))
    rfl rfl).1

end SshGithubAuth
